import Mathlib

/-!
Verification of the mupif `Field` module (`mupif/Field.py`) against its
natural-language specification.

The development shallowly embeds the code of `Field.py`: Python floats are
modelled as rationals, Python lists as Lean lists, raised exceptions as the
`Except` monad, and the mesh/cell collaborators (which the spec explicitly
treats as external, consumed through a narrow interface) enter as data
carrying the outcomes of their methods at the fixed evaluation position.
-/

namespace Mupif

/-- Python exception kinds that the embedded code can raise. -/
inductive PyError where
  | valueError
  | typeError
  | indexError
  | nameError
  | attributeError
  | zeroDivisionError
  | runtimeError
  deriving DecidableEq, Repr

/-- One stored field value: a tuple of numeric components (Python floats,
modelled as rationals). -/
abbrev Value := List ℚ

namespace FieldType

/-- Class attribute `FieldType.FT_vertexBased = 1` (Field.py line 47); a plain
Python integer tag. -/
def FT_vertexBased : Nat := 1

/-- Class attribute `FieldType.FT_cellBased = 2` (Field.py line 48). -/
def FT_cellBased : Nat := 2

end FieldType

/-- Outcome of `icell.containsPoint(position)` for a candidate cell at the
fixed evaluation position: the test returns True, returns False, or raises
`ZeroDivisionError` (degenerate, zero-measure cell). -/
inductive Containment where
  | isTrue
  | isFalse
  | zeroDiv
  deriving DecidableEq, Repr

/-- A candidate cell as returned by the localizer bounding-box query in
`Field._evaluate` (Field.py line 202), carrying the data and method outcomes
that `_evaluate` consumes: the cell number (index into cell-based `values`),
the numbers of its vertices (`icell.getVertices()`), the result of
`icell.interpolate(position, vals)` as a function of the gathered vertex
values, and the outcome of `icell.containsPoint(position)`. -/
structure EvalCell where
  number : Nat
  vertices : List Nat
  interp : List Value → Value
  contains : Containment

/-- The comprehension building interpolation inputs in Field.py line 212,
`[self.values[i.number] for i in icell.getVertices()]`: gathers stored values
at the given vertex numbers left to right, `none` models the `IndexError`
raised at the first out-of-range vertex number. -/
def gatherVertexValues (values : List Value) : List Nat → Option (List Value)
  | [] => some []
  | i :: rest =>
    match values[i]? with
    | none => none
    | some v =>
      match gatherVertexValues values rest with
      | none => none
      | some vs => some (v :: vs)

/-- The vertex-based candidate scan of `Field._evaluate` (Field.py lines
205-226). Scans candidates in localizer order; the first cell whose
containment test succeeds is interpolated and returned. A `ZeroDivisionError`
outcome enters the handler at lines 218-222, whose statement `cell.debug=1`
references the undefined name `cell` (the module only binds `Cell` and the
loop variable is `icell`), so the handler itself raises `NameError`. An
out-of-range vertex number raises `IndexError` (re-raised at line 215).
Exhausting all candidates logs an error and falls off the function body,
returning `None`. -/
def evalVertexBased (values : List Value) : List EvalCell → Except PyError (Option Value)
  | [] => .ok none
  | c :: rest =>
    match c.contains with
    | .isFalse => evalVertexBased values rest
    | .zeroDiv => .error .nameError
    | .isTrue =>
      match gatherVertexValues values c.vertices with
      | none => .error .indexError
      | some vs => .ok (some (c.interp vs))

/-- The list comprehension `[x+y for x in answer for y in tmp]` of Field.py
line 243: the cross-product of sums, not a componentwise addition. -/
def crossAdd (ans tmp : List ℚ) : List ℚ :=
  ans.flatMap (fun x => tmp.map (fun y => x + y))

/-- The inner loop `for i in answer: answer = [x+y for x in answer for y in
tmp]` of Field.py lines 242-243: the iterator ranges over the list object
`answer` referenced at loop entry, so the reassignment inside the body runs
once per element of that original list. -/
def iterCross (tmp : List ℚ) : Nat → List ℚ → List ℚ
  | 0, a => a
  | n + 1, a => iterCross tmp n (crossAdd a tmp)

/-- Accumulation step for one containing cell in the cell-based branch
(Field.py lines 239-243): with `count = 0` the answer becomes `list(tmp)`,
otherwise the buggy cross-sum loop of lines 242-243 runs `answer.length`
times. -/
def cellAccum (count : Nat) (answer tmp : List ℚ) : List ℚ :=
  if count = 0 then tmp else iterCross tmp answer.length answer

/-- The loop over candidate cells of the cell-based branch (Field.py lines
231-250), threading the `count`/`answer` state. The containment test there is
not guarded by a `ZeroDivisionError` handler, so a degenerate outcome
propagates; reading `self.values[icell.number]` out of range re-raises
`IndexError` (line 250). -/
def cellLoop (values : List Value) : List EvalCell → Nat → List ℚ → Except PyError (Nat × List ℚ)
  | [], count, answer => .ok (count, answer)
  | c :: rest, count, answer =>
    match c.contains with
    | .isFalse => cellLoop values rest count answer
    | .zeroDiv => .error .zeroDivisionError
    | .isTrue =>
      match values[c.number]? with
      | none => .error .indexError
      | some tmp => cellLoop values rest (count + 1) (cellAccum count answer tmp)

/-- The cell-based branch of `Field._evaluate` (Field.py lines 229-258):
run the accumulation loop; with `count == 0` log an error and fall off the
function body returning `None` (lines 252-255), otherwise divide every
accumulated component by `count` and return (lines 257-258). -/
def evalCellBased (values : List Value) (cells : List EvalCell) : Except PyError (Option Value) :=
  match cellLoop values cells 0 [] with
  | .error e => .error e
  | .ok (count, answer) =>
    if count = 0 then .ok none
    else .ok (some (answer.map (fun x => x / (count : ℚ))))

/-- Shallow embedding of `Field._evaluate` (Field.py lines 191-263) at a
fixed position: `values` is the field's value array and `cells` the candidate
list returned by `self.mesh.giveCellLocalizer().giveItemsInBBox(...)`. With
an empty candidate list the code raises `ValueError` (line 263); otherwise it
dispatches on the field type. -/
def fieldEvaluate (fieldType : Nat) (values : List Value) (cells : List EvalCell) :
    Except PyError (Option Value) :=
  if cells.length ≠ 0 then
    if fieldType = FieldType.FT_vertexBased then evalVertexBased values cells
    else evalCellBased values cells
  else .error .valueError

namespace ValueType

/-- Modelled from the spec: the `ValueType` enumeration module is outside the
given sources (the spec lists it among excluded flat symbol tables with kinds
Scalar, Vector, Tensor); its members are modelled as distinct integer tags,
matching the integer formatting `%d` applied to `Field.valueType` at Field.py
line 115. -/
def Scalar : Nat := 1

/-- Modelled from the spec: the Vector member of the excluded `ValueType`
enumeration module, as a distinct integer tag. -/
def Vector : Nat := 2

/-- Modelled from the spec: the Tensor member of the excluded `ValueType`
enumeration module, as a distinct integer tag. -/
def Tensor : Nat := 3

end ValueType

/-- Shallow embedding of `Field.getRecordSize` (Field.py lines 105-115):
1/3/9 scalars per value for Scalar/Vector/Tensor, `ValueError` otherwise. -/
def getRecordSize (valueType : Nat) : Except PyError Nat :=
  if valueType = ValueType.Scalar then .ok 1
  else if valueType = ValueType.Vector then .ok 3
  else if valueType = ValueType.Tensor then .ok 9
  else .error .valueError

/-- An entry of the dynamically typed merged value list of `Field.merge`: the
list is created as `[0]*n` (Field.py lines 312, 318), so a slot holds either
the integer `0` placeholder or a copied value tuple. -/
inductive MVal where
  | zero
  | tup (v : Value)
  deriving DecidableEq, Repr

/-- Modelled from the spec: the mesh collaborator (`MeshAdapter`) is outside
the given sources; per the spec it exposes vertex/cell counts and stable
vertex/cell labels with label-to-index mappings, which is all that
`Field.merge` consumes. A mesh is its ordered list of vertex labels and of
cell labels; counts are the list lengths and an entity's number is its
position. -/
structure MeshData where
  vertexLabels : List Nat
  cellLabels : List Nat
  deriving DecidableEq, Repr

/-- Modelled from the spec: `Mesh.merge` builds the union of the receiver and
the argument, deduplicating entities by their stable label (spec 4.3); the
receiver's entities keep their numbering and the argument's unseen labels are
appended in order. The receiver is mutated in place, which the store-level
embedding of `Field.merge` makes explicit. -/
def MeshData.mergeData (a b : MeshData) : MeshData where
  vertexLabels := a.vertexLabels ++ b.vertexLabels.filter (fun l => decide (l ∉ a.vertexLabels))
  cellLabels := a.cellLabels ++ b.cellLabels.filter (fun l => decide (l ∉ a.cellLabels))

/-- Reference to a mesh object; Python object identity is made explicit by a
store mapping identities to mesh data, so that in-place mutation and
`copy.deepcopy` are observable. -/
abbrev MeshId := Nat

/-- The heap of live mesh objects: index = object identity. -/
structure Store where
  meshes : List MeshData
  deriving DecidableEq, Repr

/-- Dereference a mesh id. A `Field` always holds a live reference, so a
dangling id (never produced by the embedded operations) defaults to the empty
mesh rather than threading an unreachable error. -/
def Store.get (s : Store) (i : MeshId) : MeshData :=
  s.meshes.getD i ⟨[], []⟩

/-- Overwrite the mesh object at an identity (in-place mutation). -/
def Store.update (s : Store) (i : MeshId) (m : MeshData) : Store :=
  ⟨s.meshes.set i m⟩

/-- Shallow embedding of the `Field` instance state set up in
`Field.__init__` (Field.py lines 64-91): the mesh reference, identity
attributes, and the value array. After a merge the value list is the
dynamically typed `[0]*n` list overwritten with tuples, hence `List MVal`. -/
structure Field where
  meshId : MeshId
  fieldID : Nat
  valueType : Nat
  units : Option Nat
  time : ℚ
  values : List MVal
  fieldType : Nat
  deriving DecidableEq, Repr

/-- The label-indexed write loops of `Field.merge` (Field.py lines 313-316
and 319-322): for each source entity in order, write its value into the
merged array at the index the merged mesh assigns to the entity's label
(`vertexLabel2Number` / `cellLabel2Number`, i.e. the position of the label in
the merged mesh's label list). -/
def writeLoop (mergedLabels : List Nat) : List (Nat × MVal) → List MVal → List MVal
  | [], acc => acc
  | (l, v) :: rest, acc => writeLoop mergedLabels rest (acc.set (mergedLabels.indexOf l) v)

/-- The merged value array of `Field.merge` (Field.py lines 312-316 / 318-322):
allocate `[0]*len(mergedLabels)`, write the receiver's values first, then the
argument's values. -/
def mergeValues (mergedLabels selfLabels otherLabels : List Nat)
    (selfVals otherVals : List MVal) : List MVal :=
  writeLoop mergedLabels (otherLabels.zip otherVals)
    (writeLoop mergedLabels (selfLabels.zip selfVals)
      (List.replicate mergedLabels.length MVal.zero))

/-- Shallow embedding of `Field.merge` (Field.py lines 297-325), explicit in
the mesh store. Following the source order: `copy.deepcopy(self.mesh)`
allocates a fresh mesh object with the receiver's data (line 304), then
`mesh.merge(field.mesh)` mutates that fresh object into the union (line 305),
then the type check raises `TypeError` on differing field types (lines
309-310), then the merged value array is built per storage mode (lines
311-322) and assigned to the receiver together with the merged mesh (lines
324-325). The first component is the receiver's new state (or the raised
error), the second the store after the call. -/
def Field.merge (self other : Field) (st : Store) : Except PyError Field × Store :=
  let selfMesh := st.get self.meshId
  let otherMesh := st.get other.meshId
  let mid := st.meshes.length
  let st1 : Store := ⟨st.meshes ++ [selfMesh]⟩
  let merged := selfMesh.mergeData otherMesh
  let st2 := st1.update mid merged
  if self.fieldType ≠ other.fieldType then (.error .typeError, st2)
  else if self.fieldType = FieldType.FT_vertexBased then
    (.ok { self with
        meshId := mid,
        values := mergeValues merged.vertexLabels selfMesh.vertexLabels
          otherMesh.vertexLabels self.values other.values }, st2)
  else
    (.ok { self with
        meshId := mid,
        values := mergeValues merged.cellLabels selfMesh.cellLabels
          otherMesh.cellLabels self.values other.values }, st2)

/-- The per-field datasets written by `Field.toHdf5` (Field.py lines 437-446):
either a `vertex_values` or a `cell_values` dataset. -/
inductive ValuesDS where
  | vertex (vals : List MVal)
  | cell (vals : List MVal)
  deriving DecidableEq, Repr

/-- The persistent record `Field.toHdf5` writes for one field (Field.py lines
431-446): the `fieldID`, `valueType`, pickled `units` and `time` HDF5
attributes plus the values dataset. The mesh hardlink is independent of the
attributes the round-trip claim is about and is not carried. -/
structure FieldRecord where
  fieldID : Nat
  valueType : Nat
  units : Option Nat
  timeAttr : ℚ
  ds : ValuesDS
  deriving DecidableEq, Repr

/-- Shallow embedding of the field-record part of `Field.toHdf5` (Field.py
lines 430-447). With an empty (falsy) value array no field group is created
at all (`if self.values:`, line 430), hence the `Option`. The attributes are
written as in the source; in particular line 436 stores `self.fieldID` into
the `time` attribute. The dataset copies `self.giveValue(i)` for the mesh's
entity count many indices (`IndexError` past the end of the value array); the
final branch raises `RuntimeError` for an unknown field type (line 447). -/
def Field.toHdf5Record (f : Field) (st : Store) : Except PyError (Option FieldRecord) :=
  if f.values.length ≠ 0 then
    if f.fieldType = FieldType.FT_vertexBased then
      if (st.get f.meshId).vertexLabels.length ≤ f.values.length then
        .ok (some
          { fieldID := f.fieldID, valueType := f.valueType, units := f.units,
            timeAttr := (f.fieldID : ℚ),
            ds := .vertex (f.values.take (st.get f.meshId).vertexLabels.length) })
      else .error .indexError
    else if f.fieldType = FieldType.FT_cellBased then
      if (st.get f.meshId).cellLabels.length ≤ f.values.length then
        .ok (some
          { fieldID := f.fieldID, valueType := f.valueType, units := f.units,
            timeAttr := (f.fieldID : ℚ),
            ds := .cell (f.values.take (st.get f.meshId).cellLabels.length) })
      else .error .indexError
    else .error .runtimeError
  else .ok none

/-- Shallow embedding of the per-record part of `Field.makeFromHdf5`
(Field.py lines 472-479). A `vertex_values` dataset yields a vertex-based
field carrying the stored attributes. A `cell_values` dataset evaluates
`FieldType.FT_cellBase` (line 474) — an attribute the `FieldType` class does
not define (Field.py lines 43-48 only bind `FT_vertexBased` and
`FT_cellBased`) — so the lookup raises `AttributeError`. The reconstructed
mesh reference is resolved against the freshly loaded meshes and is not part
of the round-trip claim; id 0 stands for it. -/
def Field.makeFromHdf5Record (r : FieldRecord) : Except PyError Field :=
  match r.ds with
  | .vertex vals =>
    .ok { meshId := 0, fieldID := r.fieldID, valueType := r.valueType,
          units := r.units, time := r.timeAttr, values := vals,
          fieldType := FieldType.FT_vertexBased }
  | .cell _ => .error .attributeError

/-- Store a field with `Field.toHdf5` and read it back with
`Field.makeFromHdf5`: the composition the round-trip claim is about. -/
def hdf5RoundTrip (f : Field) (st : Store) : Except PyError (Option Field) :=
  match Field.toHdf5Record f st with
  | .error e => .error e
  | .ok none => .ok none
  | .ok (some r) =>
    match Field.makeFromHdf5Record r with
    | .error e => .error e
    | .ok g => .ok (some g)

/-- Statement selector shared by the merge theorems: the labels `Field.merge`
indexes by for a given storage mode (vertex labels for `FT_vertexBased`,
cell labels otherwise, matching the branch at Field.py line 311). -/
def MeshData.entityLabels (m : MeshData) (ft : Nat) : List Nat :=
  if ft = FieldType.FT_vertexBased then m.vertexLabels else m.cellLabels

/-- Length of the list an evaluation returned, `none` for errors and for the
implicit `None` return. -/
def okLength : Except PyError (Option Value) → Option Nat
  | .ok (some l) => some l.length
  | _ => none

/-- Sample candidate cell number 0, containing the probed position, for the
cell-based averaging example. -/
def c1CellA : EvalCell := ⟨0, [], fun _ => [], Containment.isTrue⟩

/-- Sample candidate cell number 1, also containing the probed position. -/
def c1CellB : EvalCell := ⟨1, [], fun _ => [], Containment.isTrue⟩

/-- Sample candidate cell whose containment test returns False. -/
def c3CellMiss : EvalCell := ⟨0, [0], fun _ => [], Containment.isFalse⟩

/-- Sample candidate cell with a failing containment test, for the amended
no-containing-cell statement. -/
def c3wCellMiss : EvalCell := ⟨0, [], fun _ => [], Containment.isFalse⟩

/-- Sample first candidate whose containment test returns False. -/
def c4CellMiss : EvalCell := ⟨0, [0], fun _ => [], Containment.isFalse⟩

/-- Sample candidate whose containment test succeeds; interpolation
concatenates the gathered vertex values. -/
def c4CellHit : EvalCell := ⟨1, [0, 1], fun vs => vs.flatten, Containment.isTrue⟩

/-- Sample later candidate (it also claims the position, and its vertex list
is even out of range; a first-match scan never consults it). -/
def c4CellLater : EvalCell := ⟨2, [99], fun _ => [], Containment.isTrue⟩

/-- Sample candidate whose containment test raises `ZeroDivisionError`. -/
def c6CellDegenerate : EvalCell := ⟨0, [0], fun _ => [], Containment.zeroDiv⟩

/-- Sample candidate after the degenerate one, containing the position. -/
def c6CellContaining : EvalCell := ⟨1, [0], fun vs => vs.flatten, Containment.isTrue⟩

/-- Two-mesh store for the merge value example: mesh 0 has vertex labels
10, 20 and mesh 1 has vertex labels 20, 30 (label 20 collides). -/
def c5Store : Store := ⟨[⟨[10, 20], []⟩, ⟨[20, 30], []⟩]⟩

/-- Receiver field of the merge value example. -/
def c5Self : Field := ⟨0, 0, 1, none, 0, [.tup [1], .tup [2]], FieldType.FT_vertexBased⟩

/-- Argument field of the merge value example. -/
def c5Other : Field := ⟨1, 0, 1, none, 0, [.tup [5], .tup [6]], FieldType.FT_vertexBased⟩

/-- Receiver state after the example merge: merged labels 10, 20, 30, the
collided label 20 carrying the argument field's value. -/
def c5Merged : Field :=
  ⟨2, 0, 1, none, 0, [.tup [1], .tup [5], .tup [6]], FieldType.FT_vertexBased⟩

/-- Two-mesh store for the frame-effect example. -/
def c9Store : Store := ⟨[⟨[1, 2], [5]⟩, ⟨[2, 3], [6]⟩]⟩

/-- Receiver field of the frame-effect example. -/
def c9Self : Field := ⟨0, 0, 1, none, 0, [.tup [1], .tup [2]], FieldType.FT_vertexBased⟩

/-- Argument field of the frame-effect example. -/
def c9Other : Field := ⟨1, 0, 1, none, 0, [.tup [5], .tup [6]], FieldType.FT_vertexBased⟩

/-- Receiver state after the frame-effect example merge. -/
def c9Merged : Field :=
  ⟨2, 0, 1, none, 0, [.tup [1], .tup [5], .tup [6]], FieldType.FT_vertexBased⟩

/-- One-mesh store for the type-check example. -/
def c7Store : Store := ⟨[⟨[1], [5]⟩]⟩

/-- Vertex-based receiver of the type-check example. -/
def c7Self : Field := ⟨0, 0, 1, none, 0, [.tup [1]], FieldType.FT_vertexBased⟩

/-- Cell-based argument of the type-check example. -/
def c7Other : Field := ⟨0, 0, 1, none, 0, [.tup [2]], FieldType.FT_cellBased⟩

/-- Two-mesh store for the failed-merge atomicity example. -/
def c10Store : Store := ⟨[⟨[1], [5]⟩, ⟨[2], [6]⟩]⟩

/-- Vertex-based receiver of the failed-merge example. -/
def c10Self : Field := ⟨0, 0, 1, none, 0, [.tup [1]], FieldType.FT_vertexBased⟩

/-- Cell-based argument of the failed-merge example (storage modes differ). -/
def c10Other : Field := ⟨1, 0, 1, none, 0, [.tup [5]], FieldType.FT_cellBased⟩

/-- One-mesh store for the serialization example: one vertex, one cell. -/
def c2Store : Store := ⟨[⟨[42], [7]⟩]⟩

/-- Vertex-based field with `fieldID = 1` and `time = 5/2` to be stored. -/
def c2FieldV : Field := ⟨0, 1, 1, none, 5 / 2, [.tup [1]], FieldType.FT_vertexBased⟩

/-- What loading the stored record of `c2FieldV` yields: every attribute
round-trips except `time`, which comes back as the stored `fieldID`. -/
def c2Loaded : Field := ⟨0, 1, 1, none, ((1 : Nat) : ℚ), [.tup [1]], FieldType.FT_vertexBased⟩

/-- Cell-based field to be stored (its reload crashes). -/
def c2FieldC : Field := ⟨0, 1, 1, none, 5 / 2, [.tup [3]], FieldType.FT_cellBased⟩

/-- C8: `getRecordSize` returns exactly 1 for Scalar, 3 for Vector and 9 for
Tensor value kinds, and raises `ValueError` (the InvalidValueKind failure)
for every other value kind. -/
theorem getRecordSize_valueKinds :
    getRecordSize ValueType.Scalar = .ok 1 ∧
    getRecordSize ValueType.Vector = .ok 3 ∧
    getRecordSize ValueType.Tensor = .ok 9 ∧
    ∀ v : Nat, v ≠ ValueType.Scalar → v ≠ ValueType.Vector → v ≠ ValueType.Tensor →
      getRecordSize v = .error PyError.valueError := by
  refine ⟨rfl, rfl, rfl, ?_⟩
  intro v h1 h2 h3
  simp [getRecordSize, h1, h2, h3]

/-- Witness for C8 at the concrete unrecognized value kind 7. -/
theorem getRecordSize_valueKinds_witness :
    getRecordSize 7 = .error PyError.valueError :=
  getRecordSize_valueKinds.2.2.2 7 (by decide) (by decide) (by decide)

/-- C6 is violated by the code: when a candidate cell's containment test
raises `ZeroDivisionError`, the handler at Field.py lines 218-222 executes
`cell.debug=1`, and the name `cell` is bound nowhere (the module imports
`Cell` and the loop variable is `icell`), so the handler raises `NameError`
to the caller instead of skipping the candidate; the containing cell that
follows is never reached. -/
theorem vertexBased_degenerate_raises :
    fieldEvaluate FieldType.FT_vertexBased [[5]] [c6CellDegenerate, c6CellContaining]
      = .error PyError.nameError := rfl

/-- C3 is violated by the code: at a position with one candidate cell whose
containment test fails, vertex-based and cell-based evaluation both log the
missing source cell but return `None` (falling off the function body) instead
of raising the `ValueError` that the zero-candidate path raises. -/
theorem evaluate_allMiss_returnsNone :
    fieldEvaluate FieldType.FT_vertexBased [[1]] [c3CellMiss] = .ok none ∧
    fieldEvaluate FieldType.FT_cellBased [[1]] [c3CellMiss] = .ok none ∧
    (Except.ok none : Except PyError (Option Value)) ≠ .error PyError.valueError :=
  ⟨rfl, rfl, fun h => Except.noConfusion h⟩

/-- Helper: the vertex-based scan never raises `ValueError`; its only error
outcomes are the broken degeneracy handler (`NameError`) and the re-raised
`IndexError`. -/
theorem evalVertexBased_ne_valueError (values : List Value) (cells : List EvalCell) :
    evalVertexBased values cells ≠ .error PyError.valueError := by
  induction cells with
  | nil => exact fun h => Except.noConfusion h
  | cons c rest ih =>
    rw [evalVertexBased]
    cases hc : c.contains
    · cases hg : gatherVertexValues values c.vertices
      · intro h
        rw [Except.error.injEq] at h
        exact PyError.noConfusion h
      · exact fun h => Except.noConfusion h
    · exact ih
    · intro h
      rw [Except.error.injEq] at h
      exact PyError.noConfusion h

/-- Helper: the cell-based accumulation loop never raises `ValueError`; its
only error outcomes are the unguarded degenerate containment test
(`ZeroDivisionError`) and the re-raised `IndexError`. -/
theorem cellLoop_ne_valueError (values : List Value) (cells : List EvalCell)
    (count : Nat) (answer : List ℚ) :
    cellLoop values cells count answer ≠ .error PyError.valueError := by
  induction cells generalizing count answer with
  | nil => exact fun h => Except.noConfusion h
  | cons c rest ih =>
    rw [cellLoop]
    cases hc : c.contains
    · cases hv : values[c.number]?
      · intro h
        rw [Except.error.injEq] at h
        exact PyError.noConfusion h
      · exact ih _ _
    · exact ih _ _
    · intro h
      rw [Except.error.injEq] at h
      exact PyError.noConfusion h

/-- Helper: a scan over candidates that all fail their containment test
returns `None` for either storage mode. -/
theorem evalVertexBased_allMiss (values : List Value) (cells : List EvalCell)
    (h : ∀ c ∈ cells, c.contains = Containment.isFalse) :
    evalVertexBased values cells = .ok none := by
  induction cells with
  | nil => rfl
  | cons c rest ih =>
    rw [evalVertexBased, h c (List.mem_cons_self _ _)]
    exact ih fun x hx => h x (List.mem_cons_of_mem _ hx)

/-- Helper: the cell-based loop leaves its state untouched when every
candidate fails its containment test. -/
theorem cellLoop_allMiss (values : List Value) (cells : List EvalCell)
    (count : Nat) (answer : List ℚ)
    (h : ∀ c ∈ cells, c.contains = Containment.isFalse) :
    cellLoop values cells count answer = .ok (count, answer) := by
  induction cells generalizing count answer with
  | nil => rfl
  | cons c rest ih =>
    rw [cellLoop, h c (List.mem_cons_self _ _)]
    exact ih _ _ fun x hx => h x (List.mem_cons_of_mem _ hx)

/-- C3 corrected: `Field._evaluate` raises the no-containing-cell
`ValueError` exactly when the localizer returns zero candidate cells; when
candidates exist but every containment test fails, it returns `None` (after
logging) instead of raising. -/
theorem evaluate_noContainingCell (fieldType : Nat) (values : List Value)
    (cells : List EvalCell) :
    (fieldEvaluate fieldType values cells = .error PyError.valueError ↔ cells = []) ∧
    (cells ≠ [] → (∀ c ∈ cells, c.contains = Containment.isFalse) →
      fieldEvaluate fieldType values cells = .ok none) := by
  cases cells with
  | nil => exact ⟨⟨fun _ => rfl, fun _ => rfl⟩, fun h _ => absurd rfl h⟩
  | cons c rest =>
    have hne : (c :: rest).length ≠ 0 := by simp
    constructor
    · rw [fieldEvaluate, if_pos hne]
      constructor
      · intro h
        exfalso
        by_cases hft : fieldType = FieldType.FT_vertexBased
        · rw [if_pos hft] at h
          exact evalVertexBased_ne_valueError values (c :: rest) h
        · rw [if_neg hft] at h
          rw [evalCellBased] at h
          rcases hcl : cellLoop values (c :: rest) 0 [] with e | p
          · rw [hcl] at h
            rw [Except.error.injEq] at h
            subst h
            exact cellLoop_ne_valueError values (c :: rest) 0 [] hcl
          · rw [hcl] at h
            rcases p with ⟨count, answer⟩
            have h2 : (if count = 0 then (Except.ok none : Except PyError (Option Value))
                else .ok (some (answer.map (fun x => x / (count : ℚ)))))
                = .error PyError.valueError := h
            by_cases hcount : count = 0
            · rw [if_pos hcount] at h2
              exact Except.noConfusion h2
            · rw [if_neg hcount] at h2
              exact Except.noConfusion h2
      · intro h
        exact List.noConfusion h
    · intro _ hmiss
      rw [fieldEvaluate, if_pos hne]
      by_cases hft : fieldType = FieldType.FT_vertexBased
      · rw [if_pos hft]
        exact evalVertexBased_allMiss values _ hmiss
      · rw [if_neg hft]
        rw [evalCellBased, cellLoop_allMiss values _ 0 [] hmiss]
        rfl

/-- Witness for C3 at a concrete cell-based field with one candidate cell
whose containment test fails: the evaluation returns `None`. -/
theorem evaluate_noContainingCell_witness :
    fieldEvaluate FieldType.FT_cellBased [[1]] [c3wCellMiss] = .ok none :=
  (evaluate_noContainingCell FieldType.FT_cellBased [[1]] [c3wCellMiss]).2
    (by simp) (fun c hc => by cases List.mem_singleton.mp hc; rfl)

/-- C1 is violated by the code for multi-component values: at a position
shared by two candidate cells of a cell-based Vector field with stored values
(1,2,3) and (4,5,6), the accumulation comprehension of Field.py lines 242-243
builds the cross-product of sums (3 iterations of a 3-by-3 cross sum, 81
components) instead of the componentwise sum, so the result is not the
componentwise mean (5/2, 7/2, 9/2). -/
theorem cellBased_vector_mean_bug :
    okLength (fieldEvaluate FieldType.FT_cellBased [[1, 2, 3], [4, 5, 6]] [c1CellA, c1CellB])
      = some 81 ∧
    fieldEvaluate FieldType.FT_cellBased [[1, 2, 3], [4, 5, 6]] [c1CellA, c1CellB]
      ≠ .ok (some [(1 + 4) / 2, (2 + 5) / 2, (3 + 6) / 2]) := by
  have h : okLength (fieldEvaluate FieldType.FT_cellBased [[1, 2, 3], [4, 5, 6]]
      [c1CellA, c1CellB]) = some 81 := by decide
  refine ⟨h, fun hc => ?_⟩
  rw [hc] at h
  rw [okLength] at h
  rw [Option.some.injEq] at h
  exact absurd h (by decide)

/-- Helper: the vertex-based scan skips every leading candidate whose
containment test fails. -/
theorem evalVertexBased_skip (values : List Value) (pre : List EvalCell)
    (c : EvalCell) (post : List EvalCell)
    (hpre : ∀ x ∈ pre, x.contains = Containment.isFalse) :
    evalVertexBased values (pre ++ c :: post) = evalVertexBased values (c :: post) := by
  induction pre with
  | nil => rfl
  | cons a as ih =>
    rw [List.cons_append, evalVertexBased, hpre a (List.mem_cons_self _ _)]
    exact ih fun x hx => hpre x (List.mem_cons_of_mem _ hx)

/-- C4: for a vertex-based field, evaluation scans the candidates in
localizer order and returns the value interpolated from the stored vertex
values of the first cell whose containment test succeeds; the result does not
depend on the candidates after that cell (the conclusion holds for every
suffix `post`), so they are never consulted. -/
theorem vertexBased_first_match (values : List Value) (pre : List EvalCell)
    (c : EvalCell) (post : List EvalCell) (vs : List Value)
    (hpre : ∀ x ∈ pre, x.contains = Containment.isFalse)
    (hc : c.contains = Containment.isTrue)
    (hvs : gatherVertexValues values c.vertices = some vs) :
    fieldEvaluate FieldType.FT_vertexBased values (pre ++ c :: post)
      = .ok (some (c.interp vs)) := by
  have hne : (pre ++ c :: post).length ≠ 0 := by simp
  rw [fieldEvaluate, if_pos hne, if_pos rfl,
    evalVertexBased_skip values pre c post hpre, evalVertexBased, hc, hvs]

/-- Witness for C4: concrete scan with one failing candidate before the
containing cell and one candidate after it; the interpolated value of the
containing cell is returned. -/
theorem vertexBased_first_match_witness :
    fieldEvaluate FieldType.FT_vertexBased [[3], [4]] ([c4CellMiss] ++ c4CellHit :: [c4CellLater])
      = .ok (some [3, 4]) :=
  vertexBased_first_match [[3], [4]] [c4CellMiss] c4CellHit [c4CellLater] [[3], [4]]
    (fun x hx => by cases List.mem_singleton.mp hx; rfl) rfl rfl

/-- Helper: on differing storage modes the merge type check raises
`TypeError` (Field.py lines 309-310). -/
theorem merge_fst_of_ne (self other : Field) (st : Store)
    (h : self.fieldType ≠ other.fieldType) :
    (Field.merge self other st).1 = .error PyError.typeError := by
  simp only [Field.merge, if_pos h]

/-- Helper: on equal storage modes the merge returns a new receiver state and
in particular raises nothing. -/
theorem merge_fst_ok_of_eq (self other : Field) (st : Store)
    (h : self.fieldType = other.fieldType) :
    ∀ e : PyError, (Field.merge self other st).1 ≠ .error e := by
  intro e
  simp only [Field.merge, if_neg (not_not_intro h)]
  by_cases hv : self.fieldType = FieldType.FT_vertexBased
  · rw [if_pos hv]
    exact fun hc => Except.noConfusion hc
  · rw [if_neg hv]
    exact fun hc => Except.noConfusion hc

/-- Helper: a successful merge implies the storage modes were equal. -/
theorem merge_ok_fieldType (self other : Field) (st : Store) (f2 : Field)
    (hok : (Field.merge self other st).1 = Except.ok f2) :
    self.fieldType = other.fieldType := by
  by_contra hne
  rw [merge_fst_of_ne self other st hne] at hok
  exact Except.noConfusion hok

/-- C7: `Field.merge` raises `TypeError` (the IncompatibleFieldType failure,
Field.py lines 309-310) precisely when the two fields' storage modes differ;
with equal storage modes this error is never raised. -/
theorem merge_type_check (self other : Field) (st : Store) :
    (Field.merge self other st).1 = .error PyError.typeError ↔
      self.fieldType ≠ other.fieldType := by
  by_cases h : self.fieldType = other.fieldType
  · exact iff_of_false (merge_fst_ok_of_eq self other st h PyError.typeError)
      (not_not_intro h)
  · exact iff_of_true (merge_fst_of_ne self other st h) h

/-- Witness for C7 at a concrete vertex-based/cell-based pair: the merge
raises `TypeError`. -/
theorem merge_type_check_witness :
    (Field.merge c7Self c7Other c7Store).1 = .error PyError.typeError :=
  (merge_type_check c7Self c7Other c7Store).2 (by decide)

/-- Helper: the label-indexed write loop does not change the length of the
value array. -/
theorem writeLoop_length (m : List Nat) (ps : List (Nat × MVal)) (acc : List MVal) :
    (writeLoop m ps acc).length = acc.length := by
  induction ps generalizing acc with
  | nil => rfl
  | cons p rest ih =>
    obtain ⟨l, v⟩ := p
    rw [writeLoop, ih, List.length_set]

/-- Helper: a slot none of the loop's writes target keeps its value. -/
theorem writeLoop_getElem_untouched (m : List Nat) (ps : List (Nat × MVal))
    (acc : List MVal) (i : Nat) (h : ∀ p ∈ ps, m.indexOf p.1 ≠ i) :
    (writeLoop m ps acc)[i]? = acc[i]? := by
  induction ps generalizing acc with
  | nil => rfl
  | cons p rest ih =>
    obtain ⟨l, v⟩ := p
    rw [writeLoop, ih _ fun q hq => h q (List.mem_cons_of_mem _ hq)]
    exact List.getElem?_set_ne (h (l, v) (List.mem_cons_self _ _))

/-- Helper: one pass of the write loop over labelled values places each value
at the merged index of its label, provided the merged label list has no
duplicates, the source labels have no duplicates and all occur in the merged
list, and the array spans the merged list. -/
theorem writeLoop_zip_getElem (m : List Nat) (labels : List Nat) (vals : List MVal)
    (acc : List MVal) (hln : labels.Nodup)
    (hsub : ∀ l ∈ labels, l ∈ m) (hlen : labels.length = vals.length)
    (hacc : acc.length = m.length) (j : Nat) (L : Nat)
    (hj : labels[j]? = some L) :
    (writeLoop m (labels.zip vals) acc)[m.indexOf L]? = vals[j]? := by
  induction labels generalizing vals acc j with
  | nil => exact absurd hj (by simp)
  | cons l ls ih =>
    cases vals with
    | nil => exact absurd hlen (by simp)
    | cons v vs =>
      rw [List.zip_cons_cons, writeLoop]
      cases j with
      | zero =>
        have hL : l = L := by
          rw [List.getElem?_cons_zero, Option.some.injEq] at hj
          exact hj
        subst hL
        rw [List.getElem?_cons_zero]
        rw [writeLoop_getElem_untouched]
        · exact List.getElem?_set_eq_of_lt v
            (by rw [hacc]; exact List.indexOf_lt_length.2 (hsub l (List.mem_cons_self _ _)))
        · intro p hp hcontra
          have hp1 : p.1 ∈ ls := (List.of_mem_zip hp).1
          have hpl : p.1 ≠ l := fun he => (List.nodup_cons.1 hln).1 (he ▸ hp1)
          exact hpl ((List.indexOf_inj (hsub p.1 (List.mem_cons_of_mem _ hp1))
            (hsub l (List.mem_cons_self _ _))).1 hcontra)
      | succ j0 =>
        rw [List.getElem?_cons_succ] at hj
        rw [List.getElem?_cons_succ]
        exact ih vs _ (List.nodup_cons.1 hln).2
          (fun x hx => hsub x (List.mem_cons_of_mem _ hx))
          (by simpa using hlen) (by rw [List.length_set, hacc]) j0 hj

/-- Helper: every receiver label occurs in the union label list. -/
theorem mergeLabels_mem_left (a b : List Nat) (l : Nat) (h : l ∈ a) :
    l ∈ a ++ b.filter (fun x => decide (x ∉ a)) :=
  List.mem_append_left _ h

/-- Helper: every argument label occurs in the union label list. -/
theorem mergeLabels_mem_right (a b : List Nat) (l : Nat) (h : l ∈ b) :
    l ∈ a ++ b.filter (fun x => decide (x ∉ a)) := by
  by_cases hla : l ∈ a
  · exact List.mem_append_left _ hla
  · exact List.mem_append_right _ (List.mem_filter.2 ⟨h, by rw [decide_eq_true_eq]; exact hla⟩)

/-- Helper: the labels `Field.merge` indexes by on the union mesh are the
union of the two input label lists, for either storage mode. -/
theorem mergeData_entityLabels (a b : MeshData) (ft : Nat) :
    (a.mergeData b).entityLabels ft =
      a.entityLabels ft ++
        (b.entityLabels ft).filter (fun l => decide (l ∉ a.entityLabels ft)) := by
  by_cases h : ft = FieldType.FT_vertexBased
  · simp only [MeshData.entityLabels, MeshData.mergeData, if_pos h]
  · simp only [MeshData.entityLabels, MeshData.mergeData, if_neg h]

/-- Helper: on equal storage modes, `Field.merge` succeeds and its value
array is `mergeValues` over the storage mode's labels. -/
theorem merge_ok_values (self other : Field) (st : Store)
    (h : self.fieldType = other.fieldType) :
    (Field.merge self other st).1 = Except.ok
      { self with
        meshId := st.meshes.length,
        values := mergeValues
          (((st.get self.meshId).mergeData (st.get other.meshId)).entityLabels self.fieldType)
          ((st.get self.meshId).entityLabels self.fieldType)
          ((st.get other.meshId).entityLabels self.fieldType)
          self.values other.values } := by
  by_cases hv : self.fieldType = FieldType.FT_vertexBased
  · simp only [Field.merge, if_neg (not_not_intro h), if_pos hv,
      MeshData.entityLabels, if_pos hv]
  · simp only [Field.merge, if_neg (not_not_intro h), if_neg hv,
      MeshData.entityLabels, if_neg hv]

/-- C5: when two fields of equal storage mode with duplicate-free labels are
merged, every label of the argument field ends up carrying the argument's
value at the union index of that label — in particular the argument's value
wins on a label present in both fields — while a label present only in the
receiver keeps the receiver's value. -/
theorem merge_last_writer_wins (self other : Field) (st : Store) (f2 : Field)
    (hok : (Field.merge self other st).1 = Except.ok f2)
    (hnd1 : ((st.get self.meshId).entityLabels self.fieldType).Nodup)
    (hnd2 : ((st.get other.meshId).entityLabels self.fieldType).Nodup)
    (hlen1 : ((st.get self.meshId).entityLabels self.fieldType).length = self.values.length)
    (hlen2 : ((st.get other.meshId).entityLabels self.fieldType).length = other.values.length) :
    (∀ (j : Nat) (L : Nat), ((st.get other.meshId).entityLabels self.fieldType)[j]? = some L →
      f2.values[(((st.get self.meshId).mergeData (st.get other.meshId)).entityLabels
        self.fieldType).indexOf L]? = other.values[j]?) ∧
    (∀ (j : Nat) (L : Nat), ((st.get self.meshId).entityLabels self.fieldType)[j]? = some L →
      L ∉ (st.get other.meshId).entityLabels self.fieldType →
      f2.values[(((st.get self.meshId).mergeData (st.get other.meshId)).entityLabels
        self.fieldType).indexOf L]? = self.values[j]?) := by
  have hft : self.fieldType = other.fieldType := merge_ok_fieldType self other st f2 hok
  have hval := (merge_ok_values self other st hft).symm.trans hok
  rw [Except.ok.injEq] at hval
  have hv2 : f2.values = mergeValues
      (((st.get self.meshId).mergeData (st.get other.meshId)).entityLabels self.fieldType)
      ((st.get self.meshId).entityLabels self.fieldType)
      ((st.get other.meshId).entityLabels self.fieldType)
      self.values other.values := by
    rw [← hval]
  have hsub1 : ∀ l ∈ (st.get self.meshId).entityLabels self.fieldType,
      l ∈ ((st.get self.meshId).mergeData (st.get other.meshId)).entityLabels self.fieldType := by
    intro l hl
    rw [mergeData_entityLabels]
    exact mergeLabels_mem_left _ _ _ hl
  have hsub2 : ∀ l ∈ (st.get other.meshId).entityLabels self.fieldType,
      l ∈ ((st.get self.meshId).mergeData (st.get other.meshId)).entityLabels self.fieldType := by
    intro l hl
    rw [mergeData_entityLabels]
    exact mergeLabels_mem_right _ _ _ hl
  constructor
  · intro j L hj
    rw [hv2, mergeValues]
    exact writeLoop_zip_getElem _ _ _ _ hnd2 hsub2 hlen2
      (by rw [writeLoop_length, List.length_replicate]) j L hj
  · intro j L hj hnot
    rw [hv2, mergeValues]
    rw [writeLoop_getElem_untouched]
    · exact writeLoop_zip_getElem _ _ _ _ hnd1 hsub1 hlen1
        (by rw [List.length_replicate]) j L hj
    · intro p hp hcontra
      have hp1 : p.1 ∈ (st.get other.meshId).entityLabels self.fieldType :=
        (List.of_mem_zip hp).1
      have hLmem : L ∈ (st.get self.meshId).entityLabels self.fieldType := by
        rcases List.getElem?_eq_some.1 hj with ⟨hlt, heq⟩
        exact heq ▸ List.getElem_mem hlt
      exact hnot (((List.indexOf_inj (hsub2 p.1 hp1) (hsub1 L hLmem)).1 hcontra) ▸ hp1)

/-- Witness for C5 at the concrete merge of vertex fields with labels 10, 20
and 20, 30: the collided label 20 (union index 1) carries the argument's
value, the receiver-only label 10 (union index 0) keeps the receiver's. -/
theorem merge_last_writer_wins_witness :
    c5Merged.values[(1 : Nat)]? = some (MVal.tup [5]) ∧
    c5Merged.values[(0 : Nat)]? = some (MVal.tup [1]) := by
  have h := merge_last_writer_wins c5Self c5Other c5Store c5Merged rfl
    (by decide) (by decide) rfl rfl
  exact ⟨h.1 0 20 rfl, h.2 0 10 rfl (by decide)⟩

/-- Helper: overwriting the appended last element of a list. -/
theorem set_append_singleton {α : Type} (l : List α) (a b : α) :
    (l ++ [a]).set l.length b = l ++ [b] := by
  induction l with
  | nil => rfl
  | cons x xs ih => rw [List.cons_append, List.length_cons, List.set_cons_succ,
      ih, List.cons_append]

/-- Helper: the store after `Field.merge` is the input store extended with
one fresh mesh object holding the union mesh: the deep copy of the receiver's
mesh is allocated at a fresh identity and the in-place `mesh.merge` mutation
hits only that fresh object. -/
theorem merge_snd (self other : Field) (st : Store) :
    (Field.merge self other st).2 =
      ⟨st.meshes ++ [(st.get self.meshId).mergeData (st.get other.meshId)]⟩ := by
  have hs : (Store.mk (st.meshes ++ [st.get self.meshId])).update st.meshes.length
      ((st.get self.meshId).mergeData (st.get other.meshId)) =
      ⟨st.meshes ++ [(st.get self.meshId).mergeData (st.get other.meshId)]⟩ := by
    rw [Store.update, set_append_singleton]
  by_cases h : self.fieldType ≠ other.fieldType
  · rw [Field.merge]
    rw [if_pos h]
    exact hs
  · rw [Field.merge]
    rw [if_neg h]
    by_cases hv : self.fieldType = FieldType.FT_vertexBased
    · rw [if_pos hv]
      exact hs
    · rw [if_neg hv]
      exact hs

/-- Helper: dereferencing a live mesh identity is unchanged by a merge: the
call only allocates past the end of the store and mutates the fresh slot. -/
theorem merge_store_get (self other : Field) (st : Store) (i : MeshId)
    (hi : i < st.meshes.length) :
    ((Field.merge self other st).2).get i = st.get i := by
  rw [merge_snd]
  show (st.meshes ++ [(st.get self.meshId).mergeData (st.get other.meshId)]).getD i
      ⟨[], []⟩ = st.meshes.getD i ⟨[], []⟩
  rw [List.getD_eq_getElem?_getD, List.getD_eq_getElem?_getD,
    List.getElem?_append_left hi]

/-- C9: a merge does not modify the argument field's mesh nor the receiver's
original mesh object — both dereference to exactly their old data after the
call (the union mesh is built on a fresh deep copy) — and a successful merge
hands the receiver a mesh reference distinct from both inputs' meshes. The
argument field's record itself is only read by the embedded `Field.merge`,
never rebound. -/
theorem merge_frame (self other : Field) (st : Store)
    (hv1 : self.meshId < st.meshes.length) (hv2 : other.meshId < st.meshes.length) :
    ((Field.merge self other st).2).get self.meshId = st.get self.meshId ∧
    ((Field.merge self other st).2).get other.meshId = st.get other.meshId ∧
    ∀ f2 : Field, (Field.merge self other st).1 = Except.ok f2 →
      f2.meshId = st.meshes.length ∧ f2.meshId ≠ self.meshId ∧ f2.meshId ≠ other.meshId := by
  refine ⟨merge_store_get self other st _ hv1, merge_store_get self other st _ hv2, ?_⟩
  intro f2 hok
  have hft := merge_ok_fieldType self other st f2 hok
  have hval := (merge_ok_values self other st hft).symm.trans hok
  rw [Except.ok.injEq] at hval
  have hid : f2.meshId = st.meshes.length := by
    rw [← hval]
  exact ⟨hid, by rw [hid]; exact Nat.ne_of_gt hv1, by rw [hid]; exact Nat.ne_of_gt hv2⟩

/-- Witness for C9 at a concrete merge: both input meshes dereference
unchanged and the result holds the fresh mesh identity 2. -/
theorem merge_frame_witness :
    (Field.merge c9Self c9Other c9Store).2.get 0 = c9Store.get 0 ∧
    (Field.merge c9Self c9Other c9Store).2.get 1 = c9Store.get 1 ∧
    c9Merged.meshId = c9Store.meshes.length ∧
    c9Merged.meshId ≠ c9Self.meshId ∧ c9Merged.meshId ≠ c9Other.meshId := by
  have h := merge_frame c9Self c9Other c9Store (by decide) (by decide)
  have h3 := h.2.2 c9Merged rfl
  exact ⟨h.1, h.2.1, h3.1, h3.2.1, h3.2.2⟩

/-- C10: a merge that fails the storage-mode type check raises `TypeError`
and leaves the receiver's observable state intact: the raise happens before
`self.mesh` and `self.values` are reassigned (Field.py lines 309-310 precede
324-325), and the union mesh built before the check lives on a fresh deep
copy, so both fields' mesh objects still dereference to their old data. -/
theorem merge_incompatible_atomic (self other : Field) (st : Store)
    (hft : self.fieldType ≠ other.fieldType)
    (hv1 : self.meshId < st.meshes.length) (hv2 : other.meshId < st.meshes.length) :
    (Field.merge self other st).1 = .error PyError.typeError ∧
    ((Field.merge self other st).2).get self.meshId = st.get self.meshId ∧
    ((Field.merge self other st).2).get other.meshId = st.get other.meshId :=
  ⟨merge_fst_of_ne self other st hft, merge_store_get self other st _ hv1,
    merge_store_get self other st _ hv2⟩

/-- Witness for C10 at a concrete vertex-based/cell-based pair: the merge
raises `TypeError` and both mesh references dereference unchanged. -/
theorem merge_incompatible_atomic_witness :
    (Field.merge c10Self c10Other c10Store).1 = .error PyError.typeError ∧
    (Field.merge c10Self c10Other c10Store).2.get 0 = c10Store.get 0 ∧
    (Field.merge c10Self c10Other c10Store).2.get 1 = c10Store.get 1 := by
  have h := merge_incompatible_atomic c10Self c10Other c10Store
    (by decide) (by decide) (by decide)
  exact ⟨h.1, h.2.1, h.2.2⟩

/-- C2 is violated by the code: `Field.toHdf5` stores `self.fieldID` into the
`time` attribute (Field.py line 436), so the reloaded field's time equals the
original field's `fieldID`, not its time — here a field with `fieldID = 1`
and `time = 5/2` reloads with `time = 1` — although values, value type and
storage mode do round-trip for the vertex-based case. A stored cell-based
field cannot be reloaded at all: `Field.makeFromHdf5` looks up the
nonexistent attribute `FieldType.FT_cellBase` (Field.py line 474) and raises
`AttributeError`. -/
theorem hdf5_roundTrip_time_bug :
    hdf5RoundTrip c2FieldV c2Store = .ok (some c2Loaded) ∧
    c2Loaded.time ≠ c2FieldV.time ∧
    c2Loaded.time = (c2FieldV.fieldID : ℚ) ∧
    c2Loaded.values = c2FieldV.values ∧
    c2Loaded.valueType = c2FieldV.valueType ∧
    c2Loaded.fieldType = c2FieldV.fieldType ∧
    hdf5RoundTrip c2FieldC c2Store = .error PyError.attributeError := by
  refine ⟨rfl, ?_, ?_, rfl, rfl, rfl, rfl⟩
  · simp only [c2Loaded, c2FieldV]
    norm_num
  · simp only [c2Loaded, c2FieldV]

end Mupif
